import Mathlib

/-!
Verification development for the co2minimeter repository
(`src/co2minimeter.py`, a multi-threaded CO2 monitor).

The relevant parts of the Python program are shallowly embedded as
executable Lean definitions:

* timestamps are modelled as `Nat` seconds.  The program stores timestamps
  as strings in the fixed format `YYYY-MM-DD HH:MM:SS`; on that format the
  string (lexicographic) order used by the program's sort calls agrees with
  chronological order, so ordering-related claims are stated over the `Nat`
  values.
* `float` temperature and humidity values appear in the claims only through
  the persisted rendering `f"{v:.1f}"`, so they are modelled as integer
  tenths together with an explicit rendering function.
* the shared mutable globals of the program (`calibration_in_progress`,
  `calibration_event`, `sensor_warming_up`, the sensor measurement interval
  and `readings_to_skip`) are collected in an explicit state record, and
  each thread action is a function on that record.  The claims are settled
  at the granularity of the program's own critical sections (states
  observed between lock-protected operations).
-/

namespace CO2Mini

/-! ### Configuration constants (src/co2minimeter.py lines 31-39) -/

def CO2_MEASUREMENT_INTERVAL : Nat := 60

def SENSOR_WARMUP_READINGS : Nat := 2

def HOURS_TO_KEEP : Nat := 12

/-- Retention window `W` in seconds: `timedelta(hours=HOURS_TO_KEEP)`. -/
def hoursToKeepSecs : Nat := HOURS_TO_KEEP * 3600

def CALIBRATION_REFERENCE_PPM : Nat := 427

/-! ### Measurements -/

/-- One entry of the global `measurements` list: the tuple
`(timestamp_str, co2_value, temperature, humidity)`.  `ts` is the timestamp
in seconds; `temp` and `hum` are in tenths (the values as persisted to one
decimal place). -/
structure Meas where
  ts : Nat
  co2 : Int
  temp : Int
  hum : Int
deriving DecidableEq

/-! ### MeasurementStore operations

`cleanup_old_measurements` (lines 237-260) filters the global list, keeping
entries with parsed timestamp `>= datetime.now() - timedelta(hours=12)`;
`now` is the clock value at the time of the call.  `CO2Sensor.read_co2`
appends under the lock (lines 1079-1080) and then calls the cleanup
(line 1083).  Snapshots are copies taken under the same lock
(`measurements.copy()`, lines 285 and 1605). -/

def cleanup_old_measurements (now : Nat) (ms : List Meas) : List Meas :=
  ms.filter (fun m => decide (now - hoursToKeepSecs ≤ m.ts))

/-- The append-then-prune step performed for every accepted reading in
`CO2Sensor.read_co2` (lines 1079-1083). -/
def appendMeasurement (now : Nat) (m : Meas) (ms : List Meas) : List Meas :=
  cleanup_old_measurements now (ms ++ [m])

/-- A snapshot is a full copy of the current window (`measurements.copy()`). -/
def snapshot (ms : List Meas) : List Meas := ms

/-! ### Shared calibration / sensor state

The fields correspond to: the SCD30 measurement interval currently
configured on the sensor, `self.readings_to_skip`, the globals
`sensor_warming_up`, `calibration_in_progress` (guarded by
`calibration_lock`), the `calibration_event` threading event, and the
display thread's `force_redraw` flag. -/

structure SysState where
  interval : Nat
  readingsToSkip : Nat
  sensorWarmingUp : Bool
  calibrationInProgress : Bool
  calibrationEvent : Bool
  forceRedraw : Bool
deriving DecidableEq

/-- The `/calibrate` handler in `WebServer.run.RequestHandler.do_GET`
(lines 1580-1596).  `do_GET` declares
`global calibration_in_progress`, so its assignment reaches the shared
flag; it then sets the calibration event. -/
def webCalibrateTrigger (s : SysState) : SysState :=
  { s with calibrationInProgress := true, calibrationEvent := true }

/-- The hardware-button path in `CalibrationButtonMonitor.run`
(lines 716-741).  The handler executes
`calibration_in_progress = True` inside `with calibration_lock:` but the
function has no `global calibration_in_progress` declaration, so under
Python scoping the assignment binds a variable local to `run` and the
module-level flag is left unchanged.  Only `calibration_event.set()`
touches shared state. -/
def buttonCalibrateTrigger (s : SysState) : SysState :=
  { s with calibrationEvent := true }

/-- The Idle state: no calibration requested or running, sensor sampling
normally. -/
def idleState : SysState :=
  { interval := CO2_MEASUREMENT_INTERVAL
    readingsToSkip := 0
    sensorWarmingUp := false
    calibrationInProgress := false
    calibrationEvent := false
    forceRedraw := false }

/-! ### CO2Sensor.perform_calibration (lines 942-1004)

The body of the `try` block performs, in order:

| call | source line | effect on the modelled state        |
|------|-------------|-------------------------------------|
| 0    | 953         | `stop_periodic_measurement()`       |
| 1    | 958         | `set_measurement_interval(2)`       |
| 2    | 962         | `start_periodic_measurement(0)`     |
| (wait) | 966-971   | 120 x 1s stabilization loop, early `return` if `shutdown_event` is set |
| 3    | 975         | `force_recalibration(427)`          |
| 4    | 981         | `stop_periodic_measurement()`       |
| 5    | 983         | `set_measurement_interval(60)`      |
| 6    | 985         | `start_periodic_measurement(0)`     |
| (tail) | 988-989   | `readings_to_skip = 2; sensor_warming_up = True` |

Any of the seven hardware calls may raise; the `except` clause only logs,
and the `finally` clause (995-1002) always clears
`calibration_in_progress` and sets the display's `force_redraw` flag.
`CalRun` enumerates which control path the body takes. -/

/-- State after the first `k` hardware calls of the `try` body succeeded.
Calls 1 and 5 change the configured interval; the other calls have no
effect on the modelled state. -/
def calHwCalls (k : Nat) (s : SysState) : SysState :=
  let s := if 2 ≤ k then { s with interval := 2 } else s
  if 6 ≤ k then { s with interval := CO2_MEASUREMENT_INTERVAL } else s

/-- Control path taken by the body of `perform_calibration`. -/
inductive CalRun where
  /-- `not self.use_hardware or not self.sensor`: early return (line 948). -/
  | noSensor
  /-- Hardware call number `k` raised; calls before it succeeded. -/
  | raisedAt (k : Fin 7)
  /-- `shutdown_event` was observed during the stabilization wait
  (line 967): early return after calls 0-2. -/
  | shutdownInterrupted
  /-- Every hardware call succeeded. -/
  | completed
deriving DecidableEq

/-- Effects of the `try` body of `perform_calibration` along path `r`. -/
def calTryBody : CalRun → SysState → SysState
  | .noSensor, s => s
  | .raisedAt k, s => calHwCalls k.val s
  | .shutdownInterrupted, s => calHwCalls 3 s
  | .completed, s =>
      let s := calHwCalls 7 s
      { s with readingsToSkip := SENSOR_WARMUP_READINGS, sensorWarmingUp := true }

/-- `CO2Sensor.perform_calibration` (lines 942-1004): the `try` body
followed by the `finally` clause, which clears `calibration_in_progress`
under `calibration_lock` and sets `force_redraw` before notifying the
display condition. -/
def perform_calibration (r : CalRun) (s : SysState) : SysState :=
  let s := calTryBody r s
  { s with calibrationInProgress := false, forceRedraw := true }

/-- The calibration handling at the top of the `read_co2` loop
(lines 1043-1046): when `calibration_event.is_set()`, run
`perform_calibration()` and then `calibration_event.clear()`. -/
def calibrationCycle (r : CalRun) (s : SysState) : SysState :=
  let s := perform_calibration r s
  { s with calibrationEvent := false }

/-! ### Claims C1, C2, C4 -/

/-- C1: the claim states that a calibration request from either trigger
source (hardware button or web `/calibrate`) immediately makes the
'calibration in progress' state observable.  This theorem evaluates the
code at the failing input: a button trigger from the Idle state.  Because
`CalibrationButtonMonitor.run` assigns `calibration_in_progress` without a
`global` declaration (contradicting its own docstring, which says it "sets
calibration_in_progress flag and calibration_event"), the button path sets
only the event: the shared in-progress flag stays `false`, so neither the
e-ink display nor the web page can observe the calibration it starts.  The
web path, by contrast, does set the flag. -/
theorem button_trigger_leaves_in_progress_unset :
    (buttonCalibrateTrigger idleState).calibrationEvent = true
    ∧ (buttonCalibrateTrigger idleState).calibrationInProgress = false
    ∧ (webCalibrateTrigger idleState).calibrationInProgress = true
    ∧ (webCalibrateTrigger idleState).calibrationEvent = true := by
  refine ⟨rfl, rfl, rfl, rfl⟩

/-- C2: every calibration cycle terminates (the model is a total function;
the only loop in the source, the stabilization wait, is bounded at 120
iterations) and leaves the controller Idle: whichever control path the
body takes — sensor unavailable, any hardware call raising, shutdown
during stabilization, or full success — the `finally` clause clears
`calibration_in_progress` and the caller clears `calibration_event`. -/
theorem calibration_cycle_returns_to_idle (r : CalRun) (s : SysState) :
    (calibrationCycle r s).calibrationInProgress = false
    ∧ (calibrationCycle r s).calibrationEvent = false := by
  exact ⟨rfl, rfl⟩

/-- A state in which a calibration cycle is running: triggered from the web
(`calibration_in_progress` and the event set), sensor at the normal
interval, no warmup pending. -/
def calRunningState : SysState :=
  { interval := CO2_MEASUREMENT_INTERVAL
    readingsToSkip := 0
    sensorWarmingUp := false
    calibrationInProgress := true
    calibrationEvent := true
    forceRedraw := false }

/-- C4 counterexample: when `force_recalibration` (hardware call 3) raises,
the claim says the controller still "restores the original (normal)
sampling interval" and "resets the warmup counter to K".  It does not: the
restore and the reset sit in the `try` body after the failing call, so the
sensor is left at the 2-second calibration interval and the warmup counter
is left at 0. -/
theorem calibration_failure_skips_interval_restore :
    (perform_calibration (CalRun.raisedAt 3) calRunningState).interval = 2
    ∧ (perform_calibration (CalRun.raisedAt 3) calRunningState).interval
        ≠ CO2_MEASUREMENT_INTERVAL
    ∧ (perform_calibration (CalRun.raisedAt 3) calRunningState).readingsToSkip = 0
    ∧ (perform_calibration (CalRun.raisedAt 3) calRunningState).readingsToSkip
        ≠ SENSOR_WARMUP_READINGS
    ∧ (perform_calibration (CalRun.raisedAt 3) calRunningState).sensorWarmingUp
        = false := by
  refine ⟨by decide, by decide, by decide, by decide, by decide⟩

/-- C4 amended: on the success path the controller restores the normal
sampling interval, resets the warmup counter to `SENSOR_WARMUP_READINGS`,
raises the warmup flag, sets `forceRedraw` and returns to not-in-progress;
on every path (success, failure of any hardware call, missing sensor, or
shutdown during stabilization) it sets `forceRedraw`, notifies the display,
and clears the in-progress flag — but the interval restore and warmup
reset happen only on success. -/
theorem perform_calibration_resume_amended (r : CalRun) (s : SysState) :
    ((perform_calibration CalRun.completed s).interval = CO2_MEASUREMENT_INTERVAL
      ∧ (perform_calibration CalRun.completed s).readingsToSkip
          = SENSOR_WARMUP_READINGS
      ∧ (perform_calibration CalRun.completed s).sensorWarmingUp = true)
    ∧ (perform_calibration r s).forceRedraw = true
    ∧ (perform_calibration r s).calibrationInProgress = false := by
  refine ⟨⟨rfl, rfl, rfl⟩, rfl, rfl⟩

/-! ### Decimal rendering

The program renders numbers with `str`/f-strings when writing CSV rows and
display text.  The rendering is modelled explicitly so that format claims
(field shapes, decimal places) are provable. -/

/-- Character for a single decimal digit (`0 ≤ n % 10 ≤ 9`). -/
def digitChar (n : Nat) : Char := Char.ofNat (48 + n % 10)

/-- Decimal digits of `n`, most significant first; `fuel` bounds the
recursion and `n + 1` is always sufficient. -/
def natDigitsAux : Nat → Nat → List Char
  | 0, _ => []
  | fuel + 1, n =>
      if n < 10 then [digitChar n]
      else natDigitsAux fuel (n / 10) ++ [digitChar (n % 10)]

def natDigits (n : Nat) : List Char := natDigitsAux (n + 1) n

/-- Rendering of a nonnegative integer, `str(n)` for `n : Nat`. -/
def natToStr (n : Nat) : String := ⟨natDigits n⟩

/-- Rendering of an integer, `str(v)` / `f"{v}"` in the program. -/
def intToStr (v : Int) : String :=
  ⟨(if v < 0 then ['-'] else []) ++ natDigits v.natAbs⟩

/-- Rendering `f"{x:.1f}"` of a value given in tenths: sign, integer part,
a decimal point, and exactly one fractional digit. -/
def fmtTenths (x : Int) : String :=
  ⟨(if x < 0 then ['-'] else [])
    ++ natDigits (x.natAbs / 10) ++ '.' :: natDigits (x.natAbs % 10)⟩

/-! ### The acquisition loop (CO2Sensor.read_co2, lines 1041-1101) -/

/-- State touched by one loop iteration: the shared sensor/calibration
state, the in-memory store, the sequence of measurements appended to the
CSV persistence log (at this claim's granularity only membership matters),
and the display thread's `new_measurement` flag. -/
structure LoopState where
  sys : SysState
  measurements : List Meas
  persisted : List Meas
  newMeasurement : Bool

/-- One iteration of the `try` block of `read_co2` (lines 1048-1094) on an
obtained reading `m` at clock value `now`.  In the hardware branch
(lines 1049-1065) the warmup skip applies: while `readings_to_skip > 0`
the reading is logged and discarded (`continue`) and the warmup flag is
not touched; at the first reading with the counter at 0 the warmup flag is
cleared.  The simulated branch (lines 1066-1077) has neither the skip
check nor the flag clearing; both branches then share the append, cleanup,
CSV write and notification (lines 1079-1094). -/
def read_co2_iter (useHardware : Bool) (now : Nat) (m : Meas)
    (st : LoopState) : LoopState :=
  if useHardware then
    if 0 < st.sys.readingsToSkip then
      { st with sys := { st.sys with readingsToSkip := st.sys.readingsToSkip - 1 } }
    else
      let sys := if st.sys.sensorWarmingUp
        then { st.sys with sensorWarmingUp := false } else st.sys
      { st with
        sys := sys
        measurements := appendMeasurement now m st.measurements
        persisted := st.persisted ++ [m]
        newMeasurement := true }
  else
    { st with
      measurements := appendMeasurement now m st.measurements
      persisted := st.persisted ++ [m]
      newMeasurement := true }

/-- The latest-reading text computed by `EInkDisplay.run`
(lines 1316-1323): the warmup placeholder `"---"` while
`sensor_warming_up` is set, `"N/A"` for an empty store, else the latest
CO2 value. -/
def latestReadingText (warmingUp : Bool) (ms : List Meas) : String :=
  if warmingUp then "---"
  else match ms.getLast? with
    | none => "N/A"
    | some m => intToStr m.co2

/-- Startup state of the acquisition loop in simulated mode: the global
`sensor_warming_up` is initialised `True` (line 126) and
`self.readings_to_skip` to 0 (line 848; it is only raised to
`SENSOR_WARMUP_READINGS` on successful hardware init or after
calibration). -/
def simStartState : LoopState :=
  { sys := { interval := CO2_MEASUREMENT_INTERVAL
             readingsToSkip := 0
             sensorWarmingUp := true
             calibrationInProgress := false
             calibrationEvent := false
             forceRedraw := false }
    measurements := []
    persisted := []
    newMeasurement := false }

/-- C5: the claim says that in hardware and simulated mode alike the
display stops showing the warmup placeholder after at most
`SENSOR_WARMUP_READINGS = 2` discarded readings.  This theorem evaluates
the code at the failing input: three consecutive simulated-mode readings
from the startup state.  Every reading is appended to the store and the
persistence log and signalled (nothing is discarded), yet
`sensor_warming_up` is never cleared — the clearing sits only in the
hardware branch of `read_co2` — so the display still renders `"---"`,
contradicting the claim and the function's own docstring ("Sets
sensor_warming_up flag until first valid reading"). -/
theorem simulated_mode_warmup_flag_never_cleared :
    (read_co2_iter false 120 ⟨120, 600, 220, 500⟩
      (read_co2_iter false 60 ⟨60, 550, 215, 450⟩
        (read_co2_iter false 0 ⟨0, 500, 210, 400⟩ simStartState))).sys.sensorWarmingUp
        = true
    ∧ (read_co2_iter false 120 ⟨120, 600, 220, 500⟩
        (read_co2_iter false 60 ⟨60, 550, 215, 450⟩
          (read_co2_iter false 0 ⟨0, 500, 210, 400⟩ simStartState))).measurements.length
        = 3
    ∧ (read_co2_iter false 120 ⟨120, 600, 220, 500⟩
        (read_co2_iter false 60 ⟨60, 550, 215, 450⟩
          (read_co2_iter false 0 ⟨0, 500, 210, 400⟩ simStartState))).persisted.length
        = 3
    ∧ latestReadingText
        (read_co2_iter false 120 ⟨120, 600, 220, 500⟩
          (read_co2_iter false 60 ⟨60, 550, 215, 450⟩
            (read_co2_iter false 0 ⟨0, 500, 210, 400⟩ simStartState))).sys.sensorWarmingUp
        (read_co2_iter false 120 ⟨120, 600, 220, 500⟩
          (read_co2_iter false 60 ⟨60, 550, 215, 450⟩
            (read_co2_iter false 0 ⟨0, 500, 210, 400⟩ simStartState))).measurements
        = "---" := by
  refine ⟨rfl, rfl, rfl, rfl⟩

/-! ### Sorting

`load_recent_measurements` and `load_historical_data` call
`list.sort(key=lambda x: x[0])`, and `get_data_range` calls `sorted` on
filenames.  Python's sort is stable; it is modelled by a stable insertion
sort parameterised over a strict-below test `lt`: an element is inserted
before the first already-placed element that is not strictly below it, so
equal keys keep their original order. -/

def insertSorted (lt : α → α → Bool) (a : α) : List α → List α
  | [] => [a]
  | x :: xs => if lt x a then x :: insertSorted lt a xs else a :: x :: xs

def sortBy (lt : α → α → Bool) : List α → List α
  | [] => []
  | x :: xs => insertSorted lt x (sortBy lt xs)

/-- Strict comparison of measurements by timestamp, the sort key
`lambda x: x[0]` (on the fixed timestamp format, string order is
chronological order). -/
def tsLtB (a b : Meas) : Bool := decide (a.ts < b.ts)

/-- The sort `loaded_measurements.sort(key=lambda x: x[0])`. -/
def sortByTs (ms : List Meas) : List Meas := sortBy tsLtB ms

theorem mem_insertSorted {lt : α → α → Bool} {a b : α} :
    ∀ {l : List α}, b ∈ insertSorted lt a l ↔ b = a ∨ b ∈ l := by
  intro l
  induction l with
  | nil => simp [insertSorted]
  | cons x xs ih =>
      simp only [insertSorted]
      by_cases h : lt x a = true
      · simp only [if_pos h, List.mem_cons, ih]
        tauto
      · simp only [if_neg h, List.mem_cons]

theorem mem_sortBy {lt : α → α → Bool} {b : α} :
    ∀ {l : List α}, b ∈ sortBy lt l ↔ b ∈ l := by
  intro l
  induction l with
  | nil => simp [sortBy]
  | cons x xs ih =>
      simp [sortBy, mem_insertSorted, ih]

/-- Sortedness predicate for the measurement store: ascending by
timestamp. -/
def storeSorted (ms : List Meas) : Prop :=
  ms.Pairwise (fun a b => a.ts ≤ b.ts)

theorem storeSorted_insertSorted {a : Meas} :
    ∀ {l : List Meas}, storeSorted l → storeSorted (insertSorted tsLtB a l) := by
  intro l
  induction l with
  | nil =>
      intro _
      simp [insertSorted, storeSorted]
  | cons x xs ih =>
      intro h
      rw [storeSorted, List.pairwise_cons] at h
      simp only [insertSorted]
      by_cases hlt : tsLtB x a = true
      · rw [if_pos hlt, storeSorted, List.pairwise_cons]
        refine ⟨?_, ih h.2⟩
        intro y hy
        rcases mem_insertSorted.mp hy with hy | hy
        · subst hy
          exact Nat.le_of_lt (of_decide_eq_true hlt)
        · exact h.1 y hy
      · rw [if_neg hlt, storeSorted, List.pairwise_cons]
        have hax : a.ts ≤ x.ts := by
          have : ¬ x.ts < a.ts := fun hc => hlt (decide_eq_true hc)
          omega
        refine ⟨?_, ?_⟩
        · intro y hy
          rcases List.mem_cons.mp hy with hy | hy
          · subst hy; exact hax
          · exact Nat.le_trans hax (h.1 y hy)
        · rw [storeSorted] at *
          exact List.pairwise_cons.mpr h

theorem storeSorted_sortByTs : ∀ (l : List Meas), storeSorted (sortByTs l) := by
  intro l
  induction l with
  | nil => simp [sortByTs, sortBy, storeSorted]
  | cons x xs ih => exact storeSorted_insertSorted ih

/-! ### Store invariant (claims C3 and C8) -/

/-- The window invariant of the in-memory store relative to the clock
value `now` of the last completed mutation: sorted ascending by timestamp,
and every entry no older than the retention cutoff and not in the
future. -/
def storeInvariant (now : Nat) (ms : List Meas) : Prop :=
  storeSorted ms ∧ ∀ m ∈ ms, now - hoursToKeepSecs ≤ m.ts ∧ m.ts ≤ now

theorem storeInvariant_append {t tn : Nat} {m : Meas} {ms : List Meas}
    (h : storeInvariant t ms) (htt : t ≤ tn) (hm : m.ts = tn) :
    storeInvariant tn (appendMeasurement tn m ms) := by
  constructor
  · have hsorted : storeSorted (ms ++ [m]) := by
      rw [storeSorted, List.pairwise_append]
      refine ⟨h.1, List.pairwise_singleton _ _, ?_⟩
      intro a ha b hb
      have hb' : b = m := by simpa using hb
      subst hb'
      have := (h.2 a ha).2
      omega
    exact List.Pairwise.sublist (List.filter_sublist _) hsorted
  · intro x hx
    rcases List.mem_filter.mp hx with ⟨hx, hcut⟩
    have hcut' : tn - hoursToKeepSecs ≤ x.ts := of_decide_eq_true hcut
    rcases List.mem_append.mp hx with hx | hx
    · exact ⟨hcut', Nat.le_trans (h.2 x hx).2 htt⟩
    · have hxm : x = m := by simpa using hx
      subst hxm
      omega

/-- A run of the acquisition loop: fold each `(clock, reading)` pair of
the trace through the append-then-prune step. -/
def runAppends : List Meas → List (Nat × Meas) → List Meas
  | ms, [] => ms
  | ms, (t, m) :: ops => runAppends (appendMeasurement t m ms) ops

/-- Clock value of the last operation of a trace (`t0` for the empty
trace). -/
def lastTime (t0 : Nat) (ops : List (Nat × Meas)) : Nat :=
  ops.foldl (fun _ p => p.1) t0

theorem runAppends_invariant :
    ∀ (ops : List (Nat × Meas)) (ms : List Meas) (t0 : Nat),
      storeInvariant t0 ms →
      List.Chain (fun a b => a ≤ b) t0 (ops.map Prod.fst) →
      (∀ p ∈ ops, (Prod.snd p).ts = p.1) →
      storeInvariant (lastTime t0 ops) (runAppends ms ops) := by
  intro ops
  induction ops with
  | nil =>
      intro ms t0 h _ _
      exact h
  | cons op ops ih =>
      intro ms t0 h hchain hts
      obtain ⟨t, m⟩ := op
      rw [List.map_cons, List.chain_cons] at hchain
      have hm : m.ts = t := hts (t, m) (List.mem_cons_self _ _)
      have h' : storeInvariant t (appendMeasurement t m ms) :=
        storeInvariant_append h hchain.1 hm
      exact ih (appendMeasurement t m ms) t h' hchain.2
        (fun p hp => hts p (List.mem_cons_of_mem _ hp))

/-! ### CSV rows and the startup load (load_recent_measurements,
lines 174-234)

A parsed CSV data row (the header line is consumed separately by
`next(reader, None)` and is not part of the modelled row list).  The three
row shapes reflect exactly how the Python consumers can react to a row:

* `short t`: fewer than 4 fields (including a blank line, which the `csv`
  reader yields as an empty record): `load_recent_measurements` and
  `load_historical_data` skip it silently via the `len(row) >= 4` check;
  `get_data_range` only ever looks at field 0, whose timestamp parse
  outcome is `t` (`none` when the field is absent or unparsable).
* `bad t`: at least 4 fields of which some field fails `int`, `float` or
  `datetime.strptime` — processing the row raises; `t` is again the parse
  outcome of field 0 alone.
* `good m`: all four fields parse, yielding measurement `m`. -/

inductive Row where
  | short (tsv : Option Nat)
  | bad (tsv : Option Nat)
  | good (m : Meas)
deriving DecidableEq

/-- Reading the data rows of one file inside the per-file
`try`/`except` of `load_recent_measurements` (lines 207-224): well-formed
rows within the window are accumulated; short rows are skipped; the first
`bad` row raises, the exception is caught by the per-file handler, and the
rest of that file is not read (rows accumulated before it are kept,
because they were already appended to the outer list). -/
def readRowsUntilError (cutoff : Nat) : List Row → List Meas
  | [] => []
  | Row.short _ :: rest => readRowsUntilError cutoff rest
  | Row.bad _ :: _ => []
  | Row.good m :: rest =>
      (if cutoff ≤ m.ts then [m] else []) ++ readRowsUntilError cutoff rest

/-- The loop over `files_to_check` (today's and yesterday's segment files,
in that order), accumulating into `loaded_measurements`. -/
def loadFiles (cutoff : Nat) : List (List Row) → List Meas
  | [] => []
  | f :: fs => readRowsUntilError cutoff f ++ loadFiles cutoff fs

/-- `load_recent_measurements` (lines 174-234): read the present segment
files, keep rows with `timestamp >= now - timedelta(hours=12)`, then sort
ascending by timestamp. -/
def load_recent_measurements (now : Nat) (files : List (List Row)) : List Meas :=
  sortByTs (loadFiles (now - hoursToKeepSecs) files)

theorem readRowsUntilError_cutoff {cutoff : Nat} {m : Meas} :
    ∀ {rows : List Row}, m ∈ readRowsUntilError cutoff rows → cutoff ≤ m.ts := by
  intro rows
  induction rows with
  | nil => intro h; simp [readRowsUntilError] at h
  | cons r rest ih =>
      intro h
      match r with
      | Row.short _ => exact ih h
      | Row.bad _ => simp [readRowsUntilError] at h
      | Row.good m' =>
          rw [readRowsUntilError, List.mem_append] at h
          rcases h with h | h
          · by_cases hc : cutoff ≤ m'.ts
            · rw [if_pos hc] at h
              have : m = m' := by simpa using h
              subst this
              exact hc
            · rw [if_neg hc] at h
              simp at h
          · exact ih h

theorem loadFiles_cutoff {cutoff : Nat} {m : Meas} :
    ∀ {files : List (List Row)}, m ∈ loadFiles cutoff files → cutoff ≤ m.ts := by
  intro files
  induction files with
  | nil => intro h; simp [loadFiles] at h
  | cons f fs ih =>
      intro h
      rcases List.mem_append.mp h with h | h
      · exact readRowsUntilError_cutoff h
      · exact ih h

/-! ### Claim C3 -/

/-- C3: snapshots of the measurement store are sorted ascending by
timestamp and contain no entry older than the retention cutoff.  First
conjunct: the startup load produces a window already filtered to
`timestamp >= now - W` and sorted ascending.  Second conjunct: starting
from any store satisfying the window invariant (in particular the loaded
one), after any trace of append-then-prune operations with non-decreasing
clock values in which each reading is stamped with the clock of its
append, the snapshot is sorted ascending and every entry satisfies
`timestamp >= now - W`, where `now` is the clock of the last completed
mutation (entries age between mutations, but no snapshot ever observes an
unsorted or unpruned-at-mutation-time state). -/
theorem snapshot_sorted_and_windowed (files : List (List Row)) (t0 : Nat)
    (init : List Meas) (ops : List (Nat × Meas)) :
    (storeSorted (snapshot (load_recent_measurements t0 files))
      ∧ ∀ m ∈ snapshot (load_recent_measurements t0 files),
          t0 - hoursToKeepSecs ≤ m.ts)
    ∧ (storeInvariant t0 init →
        List.Chain (fun a b => a ≤ b) t0 (ops.map Prod.fst) →
        (∀ p ∈ ops, (Prod.snd p).ts = p.1) →
        storeSorted (snapshot (runAppends init ops))
          ∧ ∀ m ∈ snapshot (runAppends init ops),
              lastTime t0 ops - hoursToKeepSecs ≤ m.ts) := by
  constructor
  · constructor
    · exact storeSorted_sortByTs _
    · intro m hm
      have hm' : m ∈ sortBy tsLtB (loadFiles (t0 - hoursToKeepSecs) files) := hm
      exact loadFiles_cutoff (mem_sortBy.mp hm')
  · intro hinit hchain hts
    have h := runAppends_invariant ops init t0 hinit hchain hts
    exact ⟨h.1, fun m hm => (h.2 m hm).1⟩

/-- Witness for C3 at a concrete startup file, initial window and
two-append trace. -/
theorem snapshot_sorted_and_windowed_witness :
    (storeInvariant 200 [⟨100, 500, 210, 400⟩]
      ∧ List.Chain (fun a b => a ≤ b) 200
          ([(300, (⟨300, 600, 220, 500⟩ : Meas)), (360, ⟨360, 650, 225, 550⟩)].map Prod.fst)
      ∧ ∀ p ∈ [(300, (⟨300, 600, 220, 500⟩ : Meas)), (360, ⟨360, 650, 225, 550⟩)],
          (Prod.snd p).ts = p.1)
    ∧ (storeSorted (snapshot (runAppends [⟨100, 500, 210, 400⟩]
          [(300, ⟨300, 600, 220, 500⟩), (360, ⟨360, 650, 225, 550⟩)]))
        ∧ ∀ m ∈ snapshot (runAppends [⟨100, 500, 210, 400⟩]
            [(300, ⟨300, 600, 220, 500⟩), (360, ⟨360, 650, 225, 550⟩)]),
            lastTime 200 [(300, ⟨300, 600, 220, 500⟩), (360, ⟨360, 650, 225, 550⟩)]
              - hoursToKeepSecs ≤ m.ts) := by
  have hinv : storeInvariant 200 [⟨100, 500, 210, 400⟩] := by
    constructor
    · simp [storeSorted]
    · decide
  have hchain : List.Chain (fun a b => a ≤ b) 200
      ([(300, (⟨300, 600, 220, 500⟩ : Meas)), (360, ⟨360, 650, 225, 550⟩)].map Prod.fst) :=
    List.Chain.cons (by omega) (List.Chain.cons (by omega) List.Chain.nil)
  refine ⟨⟨hinv, hchain, by decide⟩, ?_⟩
  exact (snapshot_sorted_and_windowed [[Row.good ⟨100, 500, 210, 400⟩]] 200
    [⟨100, 500, 210, 400⟩]
    [(300, ⟨300, 600, 220, 500⟩), (360, ⟨360, 650, 225, 550⟩)]).2
    hinv hchain (by decide)

/-! ### Claim C8 -/

/-- The 12:00:00 reading of the spec's concrete scenario (43200 s into the
day, 500 ppm). -/
def measNoonA : Meas := ⟨43200, 500, 215, 450⟩

/-- The 12:00:05 reading of the spec's concrete scenario (505 ppm). -/
def measNoonB : Meas := ⟨43205, 505, 215, 450⟩

/-- C8: an append followed immediately by a snapshot contains the appended
measurement (its timestamp was taken at most the append-to-prune delay
before the prune clock, so it is inside the window), and in the concrete
scenario appending readings stamped 12:00:00 and 12:00:05 with `W = 12h`
yields a snapshot of exactly those two entries in that order. -/
theorem append_then_snapshot_contains (now : Nat) (m : Meas) (ms : List Meas)
    (h : now - hoursToKeepSecs ≤ m.ts) :
    m ∈ snapshot (appendMeasurement now m ms)
    ∧ snapshot (appendMeasurement 43205 measNoonB
        (appendMeasurement 43200 measNoonA [])) = [measNoonA, measNoonB] := by
  constructor
  · refine List.mem_filter.mpr ⟨?_, decide_eq_true h⟩
    simp
  · decide

/-- Witness for C8: the appended 12:00:05 reading is inside the window and
present in the immediate snapshot. -/
theorem append_then_snapshot_contains_witness :
    43205 - hoursToKeepSecs ≤ measNoonB.ts
    ∧ measNoonB ∈ snapshot (appendMeasurement 43205 measNoonB [measNoonA]) := by
  exact ⟨by decide,
    (append_then_snapshot_contains 43205 measNoonB [measNoonA] (by decide)).1⟩

/-! ### Claim C6 -/

/-- C6 counterexample: the claim says a malformed row is skipped and the
well-formed rows after it in the same file still appear in the result.  At
the concrete input — one file holding a good row, then a row with an
unparsable field, then another good row inside the window — the load
returns only the first row: the file-level exception handler aborts the
rest of the file, so the second good row is lost. -/
theorem malformed_row_drops_rest_of_file :
    load_recent_measurements 3000
        [[Row.good ⟨1000, 500, 210, 400⟩, Row.bad none, Row.good ⟨2000, 600, 220, 450⟩]]
      = [⟨1000, 500, 210, 400⟩]
    ∧ (⟨2000, 600, 220, 450⟩ : Meas) ∉ load_recent_measurements 3000
        [[Row.good ⟨1000, 500, 210, 400⟩, Row.bad none, Row.good ⟨2000, 600, 220, 450⟩]] := by
  constructor
  · decide
  · decide

/-- C6 amended: a malformed (unparsable) row is not fatal — loading always
returns and continues with the remaining files — but it silently ends the
processing of its own file: the load behaves exactly as if that file ended
just before the malformed row.  Rows before it (and all rows of the other
files) are loaded; rows after it in the same file are dropped. -/
theorem load_stops_at_bad_row (now : Nat) (fs1 fs2 : List (List Row))
    (pre suf : List Row) (tsv : Option Nat) :
    load_recent_measurements now (fs1 ++ (pre ++ Row.bad tsv :: suf) :: fs2)
      = load_recent_measurements now (fs1 ++ pre :: fs2) := by
  have hfile : ∀ (c : Nat) (p : List Row),
      readRowsUntilError c (p ++ Row.bad tsv :: suf) = readRowsUntilError c p := by
    intro c p
    induction p with
    | nil => simp [readRowsUntilError]
    | cons r rest ih =>
        match r with
        | Row.short t => simpa [readRowsUntilError] using ih
        | Row.bad t => simp [readRowsUntilError]
        | Row.good m => simp [readRowsUntilError, ih]
  have hload : ∀ (c : Nat) (l : List (List Row)),
      loadFiles c (l ++ (pre ++ Row.bad tsv :: suf) :: fs2)
        = loadFiles c (l ++ pre :: fs2) := by
    intro c l
    induction l with
    | nil => simp [loadFiles, hfile]
    | cons f fs ih => simp [loadFiles, ih]
  unfold load_recent_measurements
  rw [hload]

/-! ### Timestamps as structured values (save_to_csv, lines 132-171)

`save_to_csv` receives `timestamp_str` (always produced by
`datetime.now().strftime("%Y-%m-%d %H:%M:%S")` at its call sites), parses
it back with `strptime` and re-renders the date part with
`strftime("%Y-%m-%d")`.  The round trip is modelled by passing the
structured date-time value and rendering it with the two `strftime`
patterns. -/

structure DateTime where
  year : Nat
  month : Nat
  day : Nat
  hour : Nat
  minute : Nat
  second : Nat
deriving DecidableEq

/-- Zero-padded two-digit rendering, the `%m`, `%d`, `%H`, `%M`, `%S`
directives. -/
def pad2 (n : Nat) : String :=
  if n < 10 then ⟨'0' :: natDigits n⟩ else ⟨natDigits n⟩

/-- Zero-padded four-digit rendering, the `%Y` directive. -/
def pad4 (n : Nat) : String :=
  if n < 10 then ⟨'0' :: '0' :: '0' :: natDigits n⟩
  else if n < 100 then ⟨'0' :: '0' :: natDigits n⟩
  else if n < 1000 then ⟨'0' :: natDigits n⟩
  else ⟨natDigits n⟩

/-- `strftime("%Y-%m-%d")`. -/
def formatDate (d : DateTime) : String :=
  pad4 d.year ++ "-" ++ pad2 d.month ++ "-" ++ pad2 d.day

/-- `strftime("%Y-%m-%d %H:%M:%S")`, the persisted timestamp format. -/
def formatDateTime (d : DateTime) : String :=
  formatDate d ++ " " ++ pad2 d.hour ++ ":" ++ pad2 d.minute ++ ":" ++ pad2 d.second

/-! ### save_to_csv (lines 132-171) -/

/-- The fixed header row written on file creation (line 167). -/
def csvHeader : List String :=
  ["YYYY-MM-DD", "CO2, relative (x10^6)", "Temperature (°C)", "Humidity (%)"]

/-- Segment file name for a date: `data_YYYY-MM-DD.csv` (line 157). -/
def csvName (dt : DateTime) : String := "data_" ++ formatDate dt ++ ".csv"

/-- The data row written for one measurement (line 168):
`[timestamp_str, co2_value, f"{temperature:.1f}", f"{humidity:.1f}"]`. -/
def csvRowOf (dt : DateTime) (v temp hum : Int) : List String :=
  [formatDateTime dt, intToStr v, fmtTenths temp, fmtTenths hum]

/-- `save_to_csv` on the data directory modelled as a map from file name
to file content (a list of records).  `fail` selects the exception path:
the whole body is wrapped in `try`/`except` which only logs (lines
148-171), so a failing write returns normally with the visible store
unchanged.  On the normal path the segment for the measurement's calendar
date is opened in append mode (created if absent), the header row is
written exactly when `os.path.isfile` was false, and the data row is
appended. -/
def save_to_csv (fail : Bool) (fs : String → Option (List (List String)))
    (dt : DateTime) (v temp hum : Int) : String → Option (List (List String)) :=
  if fail then fs
  else
    let name := csvName dt
    let content :=
      match fs name with
      | none => [csvHeader, csvRowOf dt v temp hum]
      | some ls => ls ++ [csvRowOf dt v temp hum]
    fun k => if k = name then some content else fs k

/-! Shape lemmas for the rendered numeric fields. -/

theorem digitChar_ne_dot (n : Nat) : digitChar n ≠ '.' := by
  unfold digitChar
  have hk : n % 10 < 10 := Nat.mod_lt _ (by norm_num)
  set k := n % 10 with hks
  interval_cases k <;> decide

theorem digitChar_code (n : Nat) :
    48 ≤ (digitChar n).toNat ∧ (digitChar n).toNat ≤ 57 := by
  unfold digitChar
  have hk : n % 10 < 10 := Nat.mod_lt _ (by norm_num)
  set k := n % 10 with hks
  interval_cases k <;> constructor <;> decide

theorem dot_not_mem_natDigitsAux :
    ∀ (fuel n : Nat), '.' ∉ natDigitsAux fuel n := by
  intro fuel
  induction fuel with
  | zero => intro n h; simp [natDigitsAux] at h
  | succ f ih =>
      intro n h
      rw [natDigitsAux] at h
      by_cases hn : n < 10
      · rw [if_pos hn] at h
        have h' : ('.' : Char) = digitChar n := by simpa using h
        exact digitChar_ne_dot n h'.symm
      · rw [if_neg hn] at h
        rcases List.mem_append.mp h with h | h
        · exact ih (n / 10) h
        · have h' : ('.' : Char) = digitChar (n % 10) := by simpa using h
          exact digitChar_ne_dot (n % 10) h'.symm

theorem dot_not_mem_natDigits (n : Nat) : '.' ∉ natDigits n :=
  dot_not_mem_natDigitsAux (n + 1) n

theorem natDigits_of_lt_ten {n : Nat} (h : n < 10) :
    natDigits n = [digitChar n] := by
  simp [natDigits, natDigitsAux, h]

/-- An integer rendering: no decimal point occurs in the field. -/
def noDecimalPoint (s : String) : Prop := '.' ∉ s.data

/-- A fixed-point rendering with exactly one decimal place: the field
contains a decimal point and exactly one character — a digit — after the
last decimal point. -/
def oneDecimalPlace (s : String) : Prop :=
  ∃ c, s.data.reverse.takeWhile (fun x => x != '.') = [c]
    ∧ 48 ≤ c.toNat ∧ c.toNat ≤ 57 ∧ '.' ∈ s.data

theorem noDecimalPoint_intToStr (v : Int) : noDecimalPoint (intToStr v) := by
  intro h
  unfold intToStr at h
  rcases List.mem_append.mp h with h | h
  · by_cases hv : v < 0
    · rw [if_pos hv] at h
      simp at h
    · rw [if_neg hv] at h
      simp at h
  · exact dot_not_mem_natDigits _ h

theorem oneDecimalPlace_fmtTenths (x : Int) : oneDecimalPlace (fmtTenths x) := by
  refine ⟨digitChar (x.natAbs % 10), ?_, (digitChar_code _).1, (digitChar_code _).2, ?_⟩
  · show (((if x < 0 then ['-'] else [])
        ++ natDigits (x.natAbs / 10) ++ '.' :: natDigits (x.natAbs % 10)).reverse.takeWhile
          (fun c => c != '.')) = [digitChar (x.natAbs % 10)]
    rw [natDigits_of_lt_ten (Nat.mod_lt _ (by norm_num))]
    rw [List.reverse_append, List.reverse_append]
    simp only [List.reverse_cons, List.reverse_nil, List.nil_append, List.cons_append,
      List.append_assoc, List.takeWhile_cons]
    have h1 : (digitChar (x.natAbs % 10) != '.') = true :=
      bne_iff_ne.mpr (digitChar_ne_dot _)
    have h2 : (('.' : Char) != '.') = false := by decide
    simp [h1, h2]
  · show ('.' : Char) ∈ (if x < 0 then ['-'] else [])
      ++ natDigits (x.natAbs / 10) ++ '.' :: natDigits (x.natAbs % 10)
    simp

/-- C7: the persistence append writes the measurement's row to the segment
file of its calendar date, with fields in order — the full timestamp, the
integer primary value (no decimal point), and the secondary and tertiary
values rendered with exactly one decimal place — writes the fixed header
exactly when the file is newly created, leaves every other file unchanged,
and a write failure leaves the store as it was and is never propagated
(the model returns normally on the `fail` path). -/
theorem save_to_csv_spec (fs : String → Option (List (List String)))
    (dt : DateTime) (v temp hum : Int) :
    save_to_csv true fs dt v temp hum = fs
    ∧ (fs (csvName dt) = none →
        save_to_csv false fs dt v temp hum (csvName dt)
          = some [csvHeader, csvRowOf dt v temp hum])
    ∧ (∀ ls, fs (csvName dt) = some ls →
        save_to_csv false fs dt v temp hum (csvName dt)
          = some (ls ++ [csvRowOf dt v temp hum]))
    ∧ (∀ k, k ≠ csvName dt → save_to_csv false fs dt v temp hum k = fs k)
    ∧ csvRowOf dt v temp hum
        = [formatDateTime dt, intToStr v, fmtTenths temp, fmtTenths hum]
    ∧ noDecimalPoint (intToStr v)
    ∧ oneDecimalPlace (fmtTenths temp)
    ∧ oneDecimalPlace (fmtTenths hum) := by
  refine ⟨rfl, ?_, ?_, ?_, rfl, noDecimalPoint_intToStr v,
    oneDecimalPlace_fmtTenths temp, oneDecimalPlace_fmtTenths hum⟩
  · intro hnone
    simp [save_to_csv, hnone]
  · intro ls hsome
    simp [save_to_csv, hsome]
  · intro k hk
    simp [save_to_csv, hk]

/-- Witness for C7 at a concrete empty data directory, the date
2025-01-02 03:04:05, and the measurement (500 ppm, 21.5 °C, 45.0 %). -/
theorem save_to_csv_spec_witness :
    ((fun (_ : String) => (none : Option (List (List String))))
        (csvName ⟨2025, 1, 2, 3, 4, 5⟩) = none
      ∧ "other.csv" ≠ csvName ⟨2025, 1, 2, 3, 4, 5⟩)
    ∧ save_to_csv false (fun _ => none) ⟨2025, 1, 2, 3, 4, 5⟩ 500 215 450
        (csvName ⟨2025, 1, 2, 3, 4, 5⟩)
        = some [csvHeader, csvRowOf ⟨2025, 1, 2, 3, 4, 5⟩ 500 215 450]
    ∧ save_to_csv false (fun _ => none) ⟨2025, 1, 2, 3, 4, 5⟩ 500 215 450
        "other.csv" = (fun (_ : String) => (none : Option (List (List String)))) "other.csv" := by
  refine ⟨⟨rfl, by decide⟩, ?_, ?_⟩
  · exact (save_to_csv_spec (fun _ => none) ⟨2025, 1, 2, 3, 4, 5⟩ 500 215 450).2.1 rfl
  · exact (save_to_csv_spec (fun _ => none) ⟨2025, 1, 2, 3, 4, 5⟩ 500 215 450).2.2.2.1
      "other.csv" (by decide)

/-! ### get_data_range (lines 481-541) -/

/-- Prefix test on character lists (first argument is the pattern),
modelling `str.startswith`; applied to reversed lists it models
`str.endswith`.  (The core `String` comparison primitives are bypassed so
that every definition evaluates by kernel reduction.) -/
def leadMatch : List Char → List Char → Bool
  | [], _ => true
  | _ :: _, [] => false
  | a :: as, b :: bs => (a == b) && leadMatch as bs

/-- The filename filter `f.startswith('data_') and f.endswith('.csv')`
(line 498). -/
def isDataCsv (name : String) : Bool :=
  leadMatch ("data_".data) name.data && leadMatch (".csv".data.reverse) name.data.reverse

/-- Lexicographic comparison of strings by code point, the order used by
Python's `sorted` on the filename list. -/
def lexLt : List Char → List Char → Bool
  | [], [] => false
  | [], _ :: _ => true
  | _ :: _, [] => false
  | a :: as, b :: bs =>
      if a.toNat < b.toNat then true
      else if b.toNat < a.toNat then false
      else lexLt as bs

def strLtB (a b : String) : Bool := lexLt a.data b.data

/-- `sorted([...])` on the data files of the directory, each file paired
with its parsed data rows. -/
def sortFilesByName (fs : List (String × List Row)) : List (String × List Row) :=
  sortBy (fun a b => strLtB a.1 b.1) fs

/-- Timestamp parse of field 0 of a row, as attempted by
`get_data_range` (`strptime(row[0], ...)`; `none` when the row has no
fields, via the falsy/`IndexError` paths, or the field does not parse). -/
def Row.tsOf : Row → Option Nat
  | Row.short t => t
  | Row.bad t => t
  | Row.good m => some m.ts

/-- `get_data_range` (lines 481-541): list the `data_*.csv` files sorted
by name; with no files return `(None, None)`; otherwise read the first
data row of the first file and the last data row of the last file, each
timestamp independently becoming `None` if its row is missing or fails to
parse (each read sits in its own `try`/`except: pass`). -/
def get_data_range (dir : List (String × List Row)) : Option Nat × Option Nat :=
  let files := sortFilesByName (dir.filter (fun f => isDataCsv f.1))
  match files with
  | [] => (none, none)
  | f :: rest =>
      let lastF := (f :: rest).getLast (List.cons_ne_nil f rest)
      (f.2.head?.bind Row.tsOf, lastF.2.getLast?.bind Row.tsOf)

/-- A data directory whose earliest segment exists but is empty (header
only — `next(reader, None)` returns `None`), while the latest segment has
a well-formed row. -/
def dirMixed : List (String × List Row) :=
  [("data_2025-01-01.csv", []),
   ("data_2025-01-02.csv", [Row.good ⟨100, 500, 210, 400⟩])]

/-- C9 counterexample: the claim says the two components of the result are
never mixed (one present, one `none`).  On a directory whose earliest
segment file is empty while the latest one has a parsable row, the code
returns `(None, some t)`: each component is computed in its own
`try`/`except: pass`, so the first component falls back to `None`
independently of the second. -/
theorem data_range_mixed_on_empty_first_segment :
    (get_data_range dirMixed).1 = none
    ∧ (get_data_range dirMixed).2 = some 100 := by
  constructor
  · decide
  · decide

/-- C9 amended: `DataRange()` returns `(none, none)` when no data files
exist; otherwise each component is computed independently from its
boundary segment — the first from the first data row of the earliest
`data_*.csv` file, the last from the last data row of the latest one —
with a component individually `none` when its row is missing or
unparsable (so a mixed result is possible); whenever both boundary rows
exist and parse, both bounds are returned. -/
theorem get_data_range_bounds_amended (dir : List (String × List Row)) :
    (dir.filter (fun f => isDataCsv f.1) = [] → get_data_range dir = (none, none))
    ∧ (∀ f rest t1 t2,
        sortFilesByName (dir.filter (fun f => isDataCsv f.1)) = f :: rest →
        f.2.head?.bind Row.tsOf = some t1 →
        ((f :: rest).getLast (List.cons_ne_nil f rest)).2.getLast?.bind Row.tsOf
          = some t2 →
        get_data_range dir = (some t1, some t2)) := by
  constructor
  · intro h
    unfold get_data_range
    rw [h]
    rfl
  · intro f rest t1 t2 hs h1 h2
    unfold get_data_range
    rw [hs]
    show (f.2.head?.bind Row.tsOf,
        ((f :: rest).getLast (List.cons_ne_nil f rest)).2.getLast?.bind Row.tsOf)
      = (some t1, some t2)
    rw [h1, h2]

/-- A data directory with rows at both ends, plus a non-data file that the
filename filter must ignore. -/
def dirFull : List (String × List Row) :=
  [("data_2025-01-02.csv", [Row.good ⟨50, 450, 205, 350⟩, Row.good ⟨90, 470, 210, 360⟩]),
   ("readme.txt", []),
   ("data_2025-01-01.csv", [Row.good ⟨10, 400, 200, 300⟩])]

/-- Witness for C9 (amended) on a concrete directory: both boundary rows
parse, and both bounds are reported. -/
theorem get_data_range_bounds_amended_witness :
    (sortFilesByName (dirFull.filter (fun f => isDataCsv f.1))
        = [("data_2025-01-01.csv", [Row.good ⟨10, 400, 200, 300⟩]),
           ("data_2025-01-02.csv",
             [Row.good ⟨50, 450, 205, 350⟩, Row.good ⟨90, 470, 210, 360⟩])]
      ∧ (("data_2025-01-01.csv", [Row.good (⟨10, 400, 200, 300⟩ : Meas)]) :
            String × List Row).2.head?.bind Row.tsOf = some 10)
    ∧ get_data_range dirFull = (some 10, some 90) := by
  refine ⟨⟨by decide, by decide⟩, ?_⟩
  exact (get_data_range_bounds_amended dirFull).2
    ("data_2025-01-01.csv", [Row.good ⟨10, 400, 200, 300⟩])
    [("data_2025-01-02.csv",
       [Row.good ⟨50, 450, 205, 350⟩, Row.good ⟨90, 470, 210, 360⟩])]
    10 90 (by decide) (by decide) (by decide)

/-! ### Gap insertion for plotting (generate_plot lines 297-318,
generate_history_plot lines 577-598)

Both plot generators run an identical pass over the parsed measurement
list: every point is emitted, and between two consecutive points more than
5 minutes apart one extra point with NaN values is emitted at the temporal
midpoint `timestamps[i] + time_diff / 2`, which matplotlib renders as a
line break.  NaN entries are modelled as `none`; `timedelta` subtraction
that would be negative (out-of-order points) compares below the 5-minute
gap just as the truncating `Nat` subtraction does.  Python halves the
`timedelta` to microsecond precision; on the second-resolution timestamps
of this program the model's `Nat` division differs by at most half a
second, identically in both passes. -/

/-- A plotted point: timestamp plus optionally-NaN values. -/
structure GPoint where
  ts : Nat
  co2 : Option Int
  temp : Option Int
  hum : Option Int
deriving DecidableEq

/-- A measurement as a plotted point. -/
def toGPoint (m : Meas) : GPoint := ⟨m.ts, some m.co2, some m.temp, some m.hum⟩

/-- The NaN point inserted at the temporal midpoint of a gap. -/
def nanMid (a b : Meas) : GPoint := ⟨a.ts + (b.ts - a.ts) / 2, none, none, none⟩

/-- The gap-insertion loop of `generate_plot` (lines 297-318). -/
def insertGapsLive : List Meas → List GPoint
  | [] => []
  | [m] => [toGPoint m]
  | m1 :: m2 :: rest =>
      if 300 < m2.ts - m1.ts then
        toGPoint m1 :: nanMid m1 m2 :: insertGapsLive (m2 :: rest)
      else
        toGPoint m1 :: insertGapsLive (m2 :: rest)

/-- The gap-insertion loop of `generate_history_plot` (lines 577-598). -/
def insertGapsHistory : List Meas → List GPoint
  | [] => []
  | [m] => [toGPoint m]
  | m1 :: m2 :: rest =>
      if 300 < m2.ts - m1.ts then
        toGPoint m1 :: nanMid m1 m2 :: insertGapsHistory (m2 :: rest)
      else
        toGPoint m1 :: insertGapsHistory (m2 :: rest)

/-- Specification-level characterisation, structured over the list of
consecutive pairs: the first point, then for each consecutive pair the
optional midpoint NaN (exactly when the pair is more than 5 minutes
apart) followed by the second point of the pair. -/
def gapFill (a b : Meas) : List GPoint :=
  if 300 < b.ts - a.ts then [nanMid a b, toGPoint b] else [toGPoint b]

def gapInsertionSpec : List Meas → List GPoint
  | [] => []
  | m :: rest =>
      toGPoint m :: (List.zip (m :: rest) rest).flatMap (fun p => gapFill p.1 p.2)

theorem insertGapsLive_eq_history :
    ∀ l : List Meas, insertGapsLive l = insertGapsHistory l := by
  intro l
  induction l with
  | nil => rfl
  | cons m rest ih =>
      cases rest with
      | nil => rfl
      | cons m2 rest2 =>
          simp only [insertGapsLive, insertGapsHistory]
          rw [ih]

theorem insertGapsLive_eq_spec :
    ∀ l : List Meas, insertGapsLive l = gapInsertionSpec l := by
  intro l
  induction l with
  | nil => rfl
  | cons m rest ih =>
      cases rest with
      | nil => rfl
      | cons m2 rest2 =>
          rw [insertGapsLive, ih, gapInsertionSpec, gapInsertionSpec]
          by_cases h : 300 < m2.ts - m.ts
          · simp [gapFill, h]
          · simp [gapFill, h]

/-- C10: the gap-insertion pass of the live plot generator and that of the
history plot generator compute the same function, and both coincide with
the specification-level description: every original point is kept in
order, and exactly one NaN point is inserted at the temporal midpoint
between each pair of consecutive points more than 5 minutes apart. -/
theorem gap_insertion_passes_agree (l : List Meas) :
    insertGapsLive l = insertGapsHistory l
    ∧ insertGapsLive l = gapInsertionSpec l :=
  ⟨insertGapsLive_eq_history l, insertGapsLive_eq_spec l⟩

end CO2Mini
